import Mathlib

/-!
Shallow embedding of the RIA-store helpers of `datalad/customremotes/ria_utils.py`
and of the 7z archive shim of `datalad/support/archive_utils_7z.py`.

Paths (Python `pathlib.Path`) are modelled as lists of path components; the
`/` join operator is `pathJoin`, which — like `pathlib` — drops an empty
string component.  The storage backends (`LocalIO` / `SSHRemoteIO`, consumed
through the `io` parameter) are modelled by a finite file-system state `FS`
holding the set of created directories and a map from file paths to contents.
Side effects are additionally recorded as an explicit trace of `Eff` events so
that ordering and absence of effects are provable.  Stateful operations return
an `SRes`: the state reached, the trace of effects performed, and either
success or the raised error; an error carries the state and trace accumulated
up to the raise, so atomicity on error paths is a theorem, not a modelling
artifact.
-/

/-- A filesystem path as a list of components (`pathlib.Path`). -/
abbrev FPath := List String

/-- Python `p / s` on `pathlib` paths: joining an empty string component is a
no-op (pathlib drops empty parts); a nonempty string appends one component. -/
def pathJoin (p : FPath) (s : String) : FPath :=
  if s = "" then p else p ++ [s]

/-- Python `str(Path)` rendering (components joined by the separator). -/
def pathStr (p : FPath) : String :=
  String.intercalate "/" p

/-- Errors raised by the embedded code.  The source distinguishes the
dedicated exception class `UnknownLayoutVersion` from the builtin
`ValueError`; both carry a message string. -/
inductive RiaErr where
  | unknownLayoutVersion (msg : String) : RiaErr
  | valueError (msg : String) : RiaErr
deriving DecidableEq, Repr

/-- An external 7z invocation: either a shell pipeline string or an argv list
(`Runner.run` receives one or the other in `archive_utils_7z.py`). -/
inductive Cmd where
  | shell (s : String) : Cmd
  | argv (args : List String) : Cmd
deriving DecidableEq, Repr

/-- Observable side effects of the embedded operations, in execution order. -/
inductive Eff where
  | mkdir (p : FPath) : Eff
  | writeFile (p : FPath) (content : String) : Eff
  | unlink (p : FPath) : Eff
  | run (cwd : Option FPath) (cmd : Cmd) : Eff
deriving DecidableEq, Repr

/-- State of one storage backend: directories that exist and files with their
contents (`io.exists` / `io.read_file` / `io.write_file` / `io.mkdir`). -/
structure FS where
  dirs : List FPath
  files : List (FPath × String)
deriving DecidableEq, Repr

/-- The empty backend state. -/
def FS.empty : FS := ⟨[], []⟩

/-- Python `io.read_file` / `Path.read_text`: content of the file at `p`, if present. -/
def FS.readFile (fs : FS) (p : FPath) : Option String :=
  (fs.files.find? (fun e => e.1 = p)).map (fun e => e.2)

/-- Python `io.exists` / `Path.exists` specialised to the version-stamp files, which
are only ever created as regular files. -/
def FS.existsFile (fs : FS) (p : FPath) : Bool :=
  (fs.readFile p).isSome

/-- Python `io.mkdir(p)` with `parents=True`: records `p` and all its ancestors. -/
def FS.mkdir (fs : FS) (p : FPath) : FS :=
  { fs with dirs := fs.dirs ++ p.inits.filter (fun q => q ≠ []) }

/-- Python `io.write_file(p, c)` / stamping: create or overwrite the file at `p`. -/
def FS.write (fs : FS) (p : FPath) (c : String) : FS :=
  { fs with files := (p, c) :: fs.files.filter (fun e => e.1 ≠ p) }

/-- Python `Path.unlink()`: remove the file at `p`. -/
def FS.unlink (fs : FS) (p : FPath) : FS :=
  { fs with files := fs.files.filter (fun e => e.1 ≠ p) }

/-- Result of a stateful operation: final state, trace of effects performed,
and success or the raised error.  On an error the state and trace are the ones
reached at the moment of the raise. -/
structure SRes (σ : Type) where
  state : σ
  trace : List Eff
  result : Except RiaErr Unit

instance : DecidableEq (Except RiaErr Unit) := fun a b =>
  match a, b with
  | .ok (), .ok () => isTrue rfl
  | .ok (), .error _ => isFalse (fun h => nomatch h)
  | .error _, .ok () => isFalse (fun h => nomatch h)
  | .error e, .error f =>
    if h : e = f then isTrue (congrArg Except.error h)
    else isFalse (fun hef => h (Except.error.inj hef))

instance {σ : Type} [DecidableEq σ] : DecidableEq (SRes σ) := fun a b =>
  if h : a.state = b.state ∧ a.trace = b.trace ∧ a.result = b.result then
    isTrue (by cases a; cases b; simp_all)
  else
    isFalse (fun he => by cases a; cases b; cases he; simp_all)

/-- A single-quote character, for rendering Python `repr` of strings. -/
def sgq : String := String.singleton (Char.ofNat 39)

/-- Python `str` of a list of strings, the repr of the known version lists. -/
def pyStrListRepr (l : List String) : String :=
  "[" ++ String.intercalate ", " (l.map (fun s => sgq ++ s ++ sgq)) ++ "]"

/-- Python `s[:n]` string slicing (kernel-reducible, unlike `String.take`). -/
def pyTake (s : String) (n : Nat) : String := ⟨s.data.take n⟩

/-- Python `s[n:]` string slicing (kernel-reducible, unlike `String.drop`). -/
def pyDrop (s : String) (n : Nat) : String := ⟨s.data.drop n⟩

/-- Python `s.startswith(p)` (kernel-reducible). -/
def pyStartsWith (s p : String) : Bool := p.data.isPrefixOf s.data

/-- Python `s.endswith(p)` (kernel-reducible). -/
def pyEndsWith (s p : String) : Bool := p.data.isSuffixOf s.data

/-- Python `s.strip()`: drop leading and trailing whitespace
(kernel-reducible; the exotic extra whitespace code points Python also strips
are not modelled). -/
def pyStrip (s : String) : String :=
  ⟨(((s.data.dropWhile Char.isWhitespace).reverse.dropWhile
    Char.isWhitespace).reverse)⟩

/-- Helper for Python `s.split(sep)` with a one-character separator:
accumulates the current field (reversed) and splits at each separator. -/
def splitCharAux (sep : Char) : List Char → List Char → List (List Char)
  | [], acc => [acc.reverse]
  | c :: cs, acc =>
    if c = sep then acc.reverse :: splitCharAux sep cs []
    else splitCharAux sep cs (c :: acc)

/-- Python `s.split(sep)` for a one-character separator `sep`: always a
nonempty list of fields, empty fields preserved. -/
def pySplitChar (s : String) (sep : Char) : List String :=
  (splitCharAux sep s.data []).map (fun l => ⟨l⟩)

/-- Python `s.split('|')[0]`: the portion of `s` before the first pipe
character (all of `s` when it has none). -/
def prePipe (s : String) : String :=
  match pySplitChar s '|' with
  | [] => s
  | x :: _ => x

/-- Python `int(s)` on a string: optional surrounding whitespace, optional
sign, then decimal digits; `none` models the `ValueError` raise.  (Exotic
accepted literals such as digit-group underscores are not modelled.) -/
def pyInt? (s : String) : Option Int :=
  let t := pyStrip s
  let sign : Int := if pyStartsWith t "-" then -1 else 1
  let digits := if pyStartsWith t "-" ∨ pyStartsWith t "+" then pyDrop t 1
    else t
  if digits ≠ "" ∧ digits.data.all Char.isDigit then
    some (sign *
      (digits.data.foldl (fun n c => n * 10 + (c.toNat - 48)) 0 : Nat))
  else
    none

/-- The list `known_versions_objt` of `ria_utils.py`. -/
def known_versions_objt : List String := ["1", "2"]

/-- The list `known_versions_dst` of `ria_utils.py`. -/
def known_versions_dst : List String := ["1"]

/-- Embeds `get_layout_locations(version, base_path, dsid)` of `ria_utils.py`: for
layout version 1 returns `(dsgit_dir, archive_dir, dsobj_dir)` derived from
the 3-character split of `dsid`; any other version raises `ValueError`. -/
def get_layout_locations (version : Int) (base_path : FPath) (dsid : String) :
    Except RiaErr (FPath × FPath × FPath) :=
  if version = 1 then
    let dsgit_dir := pathJoin (pathJoin base_path (pyTake dsid 3)) (pyDrop dsid 3)
    let archive_dir := pathJoin dsgit_dir "archives"
    let dsobj_dir := pathJoin (pathJoin dsgit_dir "annex") "objects"
    .ok (dsgit_dir, archive_dir, dsobj_dir)
  else
    .error (.valueError ("Unknown layout version: " ++ toString version ++
      ". Supported: " ++ pyStrListRepr known_versions_dst))

/-- Embeds `create_store(io, base_path, version)` of `ria_utils.py`, acting on the
backend state seen through `io`.  The source's `io.exists(version_file)`
followed by `io.read_file(version_file)` is one lookup here
(`FS.readFile`), `some` exactly when the existence check succeeds. -/
def create_store (fs : FS) (base_path : FPath) (version : String) : SRes FS :=
  if version ∉ known_versions_dst then
    ⟨fs, [], .error (.unknownLayoutVersion
      ("RIA store layout version unknown: " ++ version ++
        ".Supported versions: " ++ pyStrListRepr known_versions_dst))⟩
  else
    let error_logs := pathJoin base_path "error_logs"
    let version_file := pathJoin base_path "ria-layout-version"
    match fs.readFile version_file with
    | some content =>
      let existing_version := pyStrip (prePipe content)
      if existing_version ≠ prePipe version then
        ⟨fs, [], .error (.valueError
          ("Conflicting version found at target: " ++ existing_version))⟩
      else
        ⟨fs, [], .ok ()⟩
    | none =>
      ⟨(fs.mkdir error_logs).write version_file version,
        [.mkdir error_logs, .writeFile version_file version], .ok ()⟩

/-- The two storage views of `create_ds_in_store`: the backend state reached
through the `io` execution instance, and the local filesystem that bare
`Path.exists()` / `Path.read_text()` calls observe. -/
structure World where
  ioFS : FS
  localFS : FS
deriving DecidableEq, Repr

/-- Embeds `create_ds_in_store(io, base_path, dsid, obj_version, store_version)` of
`ria_utils.py`.  Faithful to the source: the version-stamp existence check and
read use `version_file.exists()` / `version_file.read_text()` — the LOCAL
filesystem — while the mkdirs and the stamp write go through `io`. -/
def create_ds_in_store (w : World) (base_path : FPath) (dsid : String)
    (obj_version : String) (store_version : String) : SRes World :=
  match pyInt? store_version with
  | none =>
    ⟨w, [], .error (.unknownLayoutVersion
      ("invalid literal for int() with base 10: " ++ sgq ++ store_version ++ sgq))⟩
  | some sv =>
    match get_layout_locations sv base_path dsid with
    | .error (.valueError msg) => ⟨w, [], .error (.unknownLayoutVersion msg)⟩
    | .error e => ⟨w, [], .error e⟩
    | .ok (dsgit_dir, archive_dir, dsobj_dir) =>
      if obj_version ∉ known_versions_objt then
        ⟨w, [], .error (.unknownLayoutVersion
          ("Dataset layout version unknown: " ++ obj_version ++
            ". Supported: " ++ pyStrListRepr known_versions_objt))⟩
      else
        let version_file := pathJoin dsgit_dir "ria-layout-version"
        match w.localFS.readFile version_file with
        | some content =>
          let existing_version := pyStrip (prePipe content)
          if existing_version ≠ prePipe obj_version then
            ⟨w, [], .error (.valueError
              ("Conflicting dataset layout version found at target: " ++
                existing_version))⟩
          else
            ⟨⟨((w.ioFS.mkdir archive_dir).mkdir dsobj_dir).write version_file
                obj_version, w.localFS⟩,
              [.mkdir archive_dir, .mkdir dsobj_dir,
                .writeFile version_file obj_version], .ok ()⟩
        | none =>
          ⟨⟨((w.ioFS.mkdir archive_dir).mkdir dsobj_dir).write version_file
              obj_version, w.localFS⟩,
            [.mkdir archive_dir, .mkdir dsobj_dir,
              .writeFile version_file obj_version], .ok ()⟩

/-- Modelled from the spec: the parsed view of a URL as produced by the URL
parse capability (`datalad.support.network.URL`, not under `src/`);
`verify_ria_url` consumes exactly the attributes `scheme`, `fragment`,
`hostname` and `path`.  `hostname` is optional, as a URL may carry none. -/
structure UrlRI where
  scheme : String
  fragment : String
  hostname : Option String
  path : String
deriving DecidableEq, Repr

/-- Embeds `verify_ria_url(url, cfg)` of `ria_utils.py`.  The externally supplied
collaborators — `rewrite_url(cfg, url)` (modelled from the spec as an
arbitrary configuration-driven transform, the `cfg` argument curried away)
and the URL parser — are passed in as the functions `rewrite` and `parse`. -/
def verify_ria_url (rewrite : String → String) (parse : String → UrlRI)
    (url : String) : Except RiaErr (Option String × String × String) :=
  if url = "" then
    .error (.valueError "Got no URL")
  else
    let url1 := rewrite url
    let url_ri := parse url1
    if ¬ pyStartsWith url_ri.scheme "ria+" then
      .error (.valueError ("Missing ria+ prefix in final URL: " ++ url1))
    else if url_ri.fragment ≠ "" then
      .error (.valueError
        ("Unexpected fragment in RIA-store URL: " ++ url_ri.fragment))
    else
      let protocol := pyDrop url_ri.scheme 4
      if protocol ∉ ["ssh", "file"] then
        .error (.valueError ("Unsupported protocol: " ++ protocol ++
          ". Supported: ssh, file"))
      else
        .ok (if protocol = "ssh" then url_ri.hostname else none,
          url_ri.path, url1)

/-- Python `Path.suffixes` (pathlib): the list of dot-suffixes of the final
component, hidden-file leading dots stripped, none when the name ends in a
dot. -/
def pySuffixes (name : String) : List String :=
  if pyEndsWith name "." then []
  else (pySplitChar (String.mk (name.data.dropWhile (fun c => c = Char.ofNat 46)))
    (Char.ofNat 46)).tail.map (fun suf => "." ++ suf)

/-- The last component of a path, Python `Path.name`. -/
def pathName (p : FPath) : String := p.getLast?.getD ""

/-- The 7z command `compress_files` builds: the tar pipeline when the
second-to-last suffix of the archive name is `.tar`, the direct update
otherwise (`archive_utils_7z.py`).  `quote` is `quote_cmdlinearg`, an external
collaborator modelled from the spec as an opaque quoting function. -/
def compressCmd (quote : String → String) (files : List String)
    (apath : FPath) : Cmd :=
  if (pySuffixes (pathName apath)).reverse.get? 1 = some ".tar" then
    .shell ("7z u .tar -so -- " ++
      String.intercalate " " (files.map quote) ++
      " | 7z u -si -- " ++ quote (pathStr apath))
  else
    .argv (["7z", "u", pathStr apath, "--"] ++ files)

/-- Embeds `compress_files(files, archive, path=None, overwrite=True)` of
`archive_utils_7z.py`, acting on the local filesystem `fs`; `cwd` is the
`path` argument handed to the `Runner`, recorded on the run event. -/
def compress_files (quote : String → String) (fs : FS) (files : List String)
    (archive : FPath) (cwd : Option FPath) (overwrite : Bool) : SRes FS :=
  if fs.existsFile archive then
    if overwrite then
      ⟨fs.unlink archive,
        [.unlink archive, .run cwd (compressCmd quote files archive)], .ok ()⟩
    else
      ⟨fs, [], .error (.valueError
        ("Target archive " ++ pathStr archive ++
          " already exists and overwrite is forbidden"))⟩
  else
    ⟨fs, [.run cwd (compressCmd quote files archive)], .ok ()⟩

/-- The 7z command `decompress_file` builds (`archive_utils_7z.py`): the
two-stage pipe for compressed tarballs, the direct extract otherwise. -/
def decompressCmd (quote : String → String) (archive : String) : Cmd :=
  if (pySuffixes (pathName (pySplitChar archive (Char.ofNat 47)))).reverse.get? 1 =
      some ".tar" then
    .shell ("7z x " ++ quote archive ++ " -so | 7z x -si -ttar")
  else
    .argv ["7z", "x", archive]

theorem FS.readFile_mkdir (fs : FS) (q p : FPath) :
    (fs.mkdir q).readFile p = fs.readFile p := rfl

theorem FS.readFile_write_self (fs : FS) (p : FPath) (c : String) :
    (fs.write p c).readFile p = some c := by
  simp [FS.write, FS.readFile]

theorem pathJoin_empty (p : FPath) : pathJoin p "" = p := rfl

/-- Whether a layout-resolution result is the dedicated `UnknownLayoutVersion`
exception (as opposed to a builtin `ValueError`). -/
def isUnknownLayoutResult (r : Except RiaErr (FPath × FPath × FPath)) : Bool :=
  match r with
  | .error (.unknownLayoutVersion _) => true
  | _ => false

/-- C3: for version 1, `get_layout_locations` returns exactly
`(repoDir, archiveDir, objectDir)` with `repoDir = basePath / dsid[:3] /
dsid[3:]`, `archiveDir = repoDir / "archives"` and `objectDir = repoDir /
"annex" / "objects"`.  Purity and determinism are expressed by the embedding
type itself: the function is state-free and returns a value. -/
theorem get_layout_locations_v1_paths (base_path : FPath) (dsid : String) :
    get_layout_locations 1 base_path dsid =
      .ok (pathJoin (pathJoin base_path (pyTake dsid 3)) (pyDrop dsid 3),
        pathJoin (pathJoin (pathJoin base_path (pyTake dsid 3)) (pyDrop dsid 3))
          "archives",
        pathJoin (pathJoin (pathJoin (pathJoin base_path (pyTake dsid 3))
          (pyDrop dsid 3)) "annex") "objects") := rfl

/-- C4 counterexample: for version 2, `get_layout_locations` raises the
builtin `ValueError`, not the dedicated `UnknownLayoutVersion` exception the
claim names (the message does report the offending value and the supported
set). -/
theorem get_layout_locations_unknown_raises_valueError :
    get_layout_locations 2 ["base"] "abcdef" =
      .error (.valueError ("Unknown layout version: 2. Supported: " ++
        pyStrListRepr known_versions_dst)) ∧
    isUnknownLayoutResult (get_layout_locations 2 ["base"] "abcdef") = false :=
  ⟨rfl, rfl⟩

/-- C4 (amended): for every version other than 1, `get_layout_locations`
fails with a `ValueError` whose message reports the offending value and the
enumerated supported set (callers such as `create_ds_in_store` convert it to
`UnknownLayoutVersion`). -/
theorem get_layout_locations_unknown_valueError (v : Int) (base_path : FPath)
    (dsid : String) (h : v ≠ 1) :
    get_layout_locations v base_path dsid =
      .error (.valueError ("Unknown layout version: " ++ toString v ++
        ". Supported: " ++ pyStrListRepr known_versions_dst)) := by
  simp [get_layout_locations, h]

theorem get_layout_locations_unknown_valueError_witness :
    (2 : Int) ≠ 1 ∧
    get_layout_locations 2 ["base"] "xyz" =
      .error (.valueError ("Unknown layout version: 2. Supported: " ++
        pyStrListRepr known_versions_dst)) :=
  ⟨by decide, get_layout_locations_unknown_valueError 2 ["base"] "xyz"
    (by decide)⟩

/-- C10: for a dataset id shorter than 3 characters, `get_layout_locations`
succeeds at version 1: the prefix slice is the whole id, the remainder is
empty and adds no path level, so `repoDir = basePath / dsid`. -/
theorem get_layout_locations_short_id (base_path : FPath) (dsid : String)
    (h : dsid.length < 3) :
    get_layout_locations 1 base_path dsid =
      .ok (pathJoin base_path dsid,
        pathJoin (pathJoin base_path dsid) "archives",
        pathJoin (pathJoin (pathJoin base_path dsid) "annex") "objects") := by
  have hle : dsid.data.length ≤ 3 := Nat.le_of_lt h
  have ht : pyTake dsid 3 = dsid := by
    apply String.ext
    exact List.take_of_length_le hle
  have hd : pyDrop dsid 3 = "" := by
    apply String.ext
    exact List.drop_eq_nil_of_le hle
  simp [get_layout_locations, ht, hd, pathJoin_empty]

theorem get_layout_locations_short_id_witness :
    "ab".length < 3 ∧
    get_layout_locations 1 ["base"] "ab" =
      .ok (pathJoin ["base"] "ab",
        pathJoin (pathJoin ["base"] "ab") "archives",
        pathJoin (pathJoin (pathJoin ["base"] "ab") "annex") "objects") :=
  ⟨by decide, get_layout_locations_short_id ["base"] "ab" (by decide)⟩

/-- C1 counterexample: after `create_store(io, base, "1")` stamps the store,
`create_store(io, base, "2")` — the requested version whose pre-pipe portion
differs from the stored one — fails with `UnknownLayoutVersion` for the
requested value, not with the version-conflict `ValueError` reporting the
stored "1": the membership check on `known_versions_dst` fires before the
conflict check is ever reached. -/
theorem create_store_reinit_v2_unknown_not_conflict :
    create_store FS.empty ["store"] "1" =
      ⟨⟨[["store"], ["store", "error_logs"]],
          [(["store", "ria-layout-version"], "1")]⟩,
        [.mkdir ["store", "error_logs"],
          .writeFile ["store", "ria-layout-version"] "1"], .ok ()⟩ ∧
    create_store
        ⟨[["store"], ["store", "error_logs"]],
          [(["store", "ria-layout-version"], "1")]⟩ ["store"] "2" =
      ⟨⟨[["store"], ["store", "error_logs"]],
          [(["store", "ria-layout-version"], "1")]⟩, [],
        .error (.unknownLayoutVersion
          ("RIA store layout version unknown: 2.Supported versions: " ++
            pyStrListRepr known_versions_dst))⟩ :=
  ⟨rfl, rfl⟩

/-- C1 (amended): when the version file holds content `s` and the requested
version is itself in the supported set, `create_store` succeeds as a no-op if
the stripped pre-pipe portion of `s` equals the pre-pipe portion of the
request (so `"1|some-config"` is compared as `"1"`), and otherwise fails with
the version-conflict `ValueError` reporting the stored (stripped) prefix.  A
request outside the supported set fails earlier with `UnknownLayoutVersion`,
so the conflict error is unreachable for stores stamped by `create_store`
itself. -/
theorem create_store_conflict_check (fs : FS) (base_path : FPath)
    (version s : String)
    (hread : fs.readFile (pathJoin base_path "ria-layout-version") = some s)
    (hv : version ∈ known_versions_dst) :
    create_store fs base_path version =
      (if pyStrip (prePipe s) = prePipe version then ⟨fs, [], .ok ()⟩
       else ⟨fs, [], .error (.valueError
                  ("Conflicting version found at target: " ++ pyStrip (prePipe s)))⟩) := by
  by_cases hc : pyStrip (prePipe s) = prePipe version
  · simp [create_store, hv, hread, hc]
  · simp [create_store, hv, hread, hc]

theorem create_store_conflict_check_witness :
    (FS.empty.write (pathJoin ["store"] "ria-layout-version")
        "1|some-config").readFile (pathJoin ["store"] "ria-layout-version") =
      some "1|some-config" ∧
    "1" ∈ known_versions_dst ∧
    create_store
        (FS.empty.write (pathJoin ["store"] "ria-layout-version")
          "1|some-config") ["store"] "1" =
      ⟨FS.empty.write (pathJoin ["store"] "ria-layout-version")
        "1|some-config", [], .ok ()⟩ :=
  ⟨rfl, by decide,
    (create_store_conflict_check
      (FS.empty.write (pathJoin ["store"] "ria-layout-version")
        "1|some-config") ["store"] "1" "1|some-config" rfl
      (by decide)).trans (by rfl)⟩

/-- C2: a second `create_store` with the same base path and version after a
successful one succeeds as a no-op: it performs no directory creation and no
write (empty effect trace) and leaves the storage state exactly as the first
call left it. -/
theorem create_store_idempotent (fs fs1 : FS) (base_path : FPath)
    (version : String) (tr : List Eff)
    (h : create_store fs base_path version = ⟨fs1, tr, .ok ()⟩) :
    create_store fs1 base_path version = ⟨fs1, [], .ok ()⟩ := by
  by_cases hv : version ∈ known_versions_dst
  case neg =>
    exfalso
    have hres := congrArg SRes.result h
    simp [create_store, hv] at hres
  case pos =>
    have hv1 : version = "1" := by simpa [known_versions_dst] using hv
    subst hv1
    cases hr : fs.readFile (pathJoin base_path "ria-layout-version") with
    | some content =>
      by_cases hc : pyStrip (prePipe content) = prePipe "1"
      · have hfs : fs1 = fs := by
          have hst := congrArg SRes.state h
          simp [create_store, hv, hr, hc] at hst
          exact hst.symm
        subst hfs
        simp [create_store, hv, hr, hc]
      · exfalso
        have hres := congrArg SRes.result h
        simp [create_store, hv, hr, hc] at hres
    | none =>
      have hfs : fs1 = (fs.mkdir (pathJoin base_path "error_logs")).write
          (pathJoin base_path "ria-layout-version") "1" := by
        have hst := congrArg SRes.state h
        simp [create_store, hv, hr] at hst
        exact hst.symm
      subst hfs
      simp [create_store, hv, FS.readFile_write_self, FS.readFile_mkdir,
        show pyStrip (prePipe "1") = prePipe "1" from rfl]

theorem create_store_idempotent_witness :
    create_store FS.empty ["store"] "1" =
      ⟨⟨[["store"], ["store", "error_logs"]],
          [(["store", "ria-layout-version"], "1")]⟩,
        [.mkdir ["store", "error_logs"],
          .writeFile ["store", "ria-layout-version"] "1"], .ok ()⟩ ∧
    create_store
        ⟨[["store"], ["store", "error_logs"]],
          [(["store", "ria-layout-version"], "1")]⟩ ["store"] "1" =
      ⟨⟨[["store"], ["store", "error_logs"]],
          [(["store", "ria-layout-version"], "1")]⟩, [], .ok ()⟩ :=
  ⟨rfl, create_store_idempotent FS.empty
    ⟨[["store"], ["store", "error_logs"]],
      [(["store", "ria-layout-version"], "1")]⟩ ["store"] "1"
    [.mkdir ["store", "error_logs"],
      .writeFile ["store", "ria-layout-version"] "1"] rfl⟩

/-- C5: `create_ds_in_store` does NOT observe the version file through the
supplied backend: the existence check and read use bare `Path.exists()` /
`Path.read_text()` against the local filesystem, while `create_store` (and
the mutations of `create_ds_in_store` itself) go through `io`.  With a
conflicting stamp "2" visible only through `io`, the call succeeds and
overwrites it; with the same stamp visible only locally, it raises the
conflict — the opposite of the specified capability-respecting behavior. -/
theorem create_ds_in_store_version_check_local_only :
    (create_ds_in_store
        ⟨FS.empty.write ["base", "abc", "def", "ria-layout-version"] "2",
          FS.empty⟩ ["base"] "abcdef" "1" "1").result = .ok () ∧
    (create_ds_in_store
        ⟨FS.empty.write ["base", "abc", "def", "ria-layout-version"] "2",
          FS.empty⟩ ["base"] "abcdef" "1" "1").state.ioFS.readFile
      ["base", "abc", "def", "ria-layout-version"] = some "1" ∧
    create_ds_in_store
        ⟨FS.empty,
          FS.empty.write ["base", "abc", "def", "ria-layout-version"] "2"⟩
        ["base"] "abcdef" "1" "1" =
      ⟨⟨FS.empty,
          FS.empty.write ["base", "abc", "def", "ria-layout-version"] "2"⟩,
        [], .error (.valueError
          "Conflicting dataset layout version found at target: 2")⟩ :=
  ⟨rfl, rfl, rfl⟩

/-- C6: in every successful run of `create_ds_in_store` (the only runs that
write the version stamp), the effect trace is exactly the creation of
`archiveDir`, then the creation of `objectDir`, then the write of the version
stamp: both directory creations precede the stamp write, so no intermediate
state produced by the operation has the stamp without the directories. -/
theorem create_ds_in_store_trace (w w' : World) (base_path : FPath)
    (dsid obj_version store_version : String) (tr : List Eff)
    (h : create_ds_in_store w base_path dsid obj_version store_version =
      ⟨w', tr, .ok ()⟩) :
    tr = [.mkdir (pathJoin (pathJoin (pathJoin base_path (pyTake dsid 3))
        (pyDrop dsid 3)) "archives"),
      .mkdir (pathJoin (pathJoin (pathJoin (pathJoin base_path
        (pyTake dsid 3)) (pyDrop dsid 3)) "annex") "objects"),
      .writeFile (pathJoin (pathJoin (pathJoin base_path (pyTake dsid 3))
        (pyDrop dsid 3)) "ria-layout-version") obj_version] := by
  unfold create_ds_in_store at h
  split at h
  · exact absurd (congrArg SRes.result h) (by simp)
  · rename_i sv hsv
    split at h
    · exact absurd (congrArg SRes.result h) (by simp)
    · exact absurd (congrArg SRes.result h) (by simp)
    · rename_i dsgit_dir archive_dir dsobj_dir heq
      have hsv1 : sv = 1 := by
        by_contra hne
        simp [get_layout_locations, hne] at heq
      subst hsv1
      have heq2 := (show get_layout_locations 1 base_path dsid =
        .ok (pathJoin (pathJoin base_path (pyTake dsid 3)) (pyDrop dsid 3),
          pathJoin (pathJoin (pathJoin base_path (pyTake dsid 3))
            (pyDrop dsid 3)) "archives",
          pathJoin (pathJoin (pathJoin (pathJoin base_path (pyTake dsid 3))
            (pyDrop dsid 3)) "annex") "objects") from rfl).symm.trans heq
      injection heq2 with h3
      injection h3 with h3a h3bc
      injection h3bc with h3b h3c
      subst h3a
      subst h3b
      subst h3c
      split at h
      · exact absurd (congrArg SRes.result h) (by simp)
      · dsimp only at h
        split at h
        · split at h
          · exact absurd (congrArg SRes.result h) (by simp)
          · exact (congrArg SRes.trace h).symm
        · exact (congrArg SRes.trace h).symm

theorem create_ds_in_store_trace_witness :
    create_ds_in_store ⟨FS.empty, FS.empty⟩ ["base"] "abcdef" "1" "1" =
      ⟨⟨(((FS.empty.mkdir ["base", "abc", "def", "archives"]).mkdir
            ["base", "abc", "def", "annex", "objects"]).write
          ["base", "abc", "def", "ria-layout-version"] "1"), FS.empty⟩,
        [.mkdir ["base", "abc", "def", "archives"],
          .mkdir ["base", "abc", "def", "annex", "objects"],
          .writeFile ["base", "abc", "def", "ria-layout-version"] "1"],
        .ok ()⟩ ∧
    [Eff.mkdir ["base", "abc", "def", "archives"],
      Eff.mkdir ["base", "abc", "def", "annex", "objects"],
      Eff.writeFile ["base", "abc", "def", "ria-layout-version"] "1"] =
      [.mkdir (pathJoin (pathJoin (pathJoin ["base"] (pyTake "abcdef" 3))
          (pyDrop "abcdef" 3)) "archives"),
        .mkdir (pathJoin (pathJoin (pathJoin (pathJoin ["base"]
          (pyTake "abcdef" 3)) (pyDrop "abcdef" 3)) "annex") "objects"),
        .writeFile (pathJoin (pathJoin (pathJoin ["base"]
          (pyTake "abcdef" 3)) (pyDrop "abcdef" 3)) "ria-layout-version")
          "1"] :=
  ⟨rfl, create_ds_in_store_trace ⟨FS.empty, FS.empty⟩
    ⟨(((FS.empty.mkdir ["base", "abc", "def", "archives"]).mkdir
        ["base", "abc", "def", "annex", "objects"]).write
      ["base", "abc", "def", "ria-layout-version"] "1"), FS.empty⟩
    ["base"] "abcdef" "1" "1"
    [.mkdir ["base", "abc", "def", "archives"],
      .mkdir ["base", "abc", "def", "annex", "objects"],
      .writeFile ["base", "abc", "def", "ria-layout-version"] "1"] rfl⟩

/-- C9: whenever `create_store` or `create_ds_in_store` raises any of its
errors (unknown layout version, unparsable store version, or version
conflict), the storage state is unchanged and no effect — no directory
creation, no file write — has been performed: every validation and conflict
check precedes the first mutating operation. -/
theorem initializers_error_atomicity :
    (∀ (fs st : FS) (base_path : FPath) (version : String) (tr : List Eff)
      (e : RiaErr),
      create_store fs base_path version = ⟨st, tr, .error e⟩ →
      st = fs ∧ tr = []) ∧
    (∀ (w w' : World) (base_path : FPath)
      (dsid obj_version store_version : String) (tr : List Eff) (e : RiaErr),
      create_ds_in_store w base_path dsid obj_version store_version =
        ⟨w', tr, .error e⟩ →
      w' = w ∧ tr = []) := by
  constructor
  · intro fs st base_path version tr e h
    unfold create_store at h
    split at h
    · exact ⟨(congrArg SRes.state h).symm, (congrArg SRes.trace h).symm⟩
    · dsimp only at h
      split at h
      · split at h
        · exact ⟨(congrArg SRes.state h).symm, (congrArg SRes.trace h).symm⟩
        · exact absurd (congrArg SRes.result h) (by simp)
      · exact absurd (congrArg SRes.result h) (by simp)
  · intro w w' base_path dsid obj_version store_version tr e h
    unfold create_ds_in_store at h
    split at h
    · exact ⟨(congrArg SRes.state h).symm, (congrArg SRes.trace h).symm⟩
    · split at h
      · exact ⟨(congrArg SRes.state h).symm, (congrArg SRes.trace h).symm⟩
      · exact ⟨(congrArg SRes.state h).symm, (congrArg SRes.trace h).symm⟩
      · split at h
        · exact ⟨(congrArg SRes.state h).symm, (congrArg SRes.trace h).symm⟩
        · dsimp only at h
          split at h
          · split at h
            · exact ⟨(congrArg SRes.state h).symm,
                (congrArg SRes.trace h).symm⟩
            · exact absurd (congrArg SRes.result h) (by simp)
          · exact absurd (congrArg SRes.result h) (by simp)

theorem initializers_error_atomicity_witness :
    create_store FS.empty ["store"] "7" =
      ⟨FS.empty, [], .error (.unknownLayoutVersion
        ("RIA store layout version unknown: 7.Supported versions: " ++
          pyStrListRepr known_versions_dst))⟩ ∧
    FS.empty = FS.empty ∧ ([] : List Eff) = [] :=
  ⟨rfl, initializers_error_atomicity.1 FS.empty FS.empty ["store"] "7" []
    (.unknownLayoutVersion
      ("RIA store layout version unknown: 7.Supported versions: " ++
        pyStrListRepr known_versions_dst)) rfl⟩

/-- C7: for every nonempty url whose rewritten form parses with scheme
`ria+p` for `p` either "ssh" or "file" and with no fragment, `verify_ria_url`
returns `(hostname when p is "ssh", path component, fully rewritten url)`.
The rewrite and parse collaborators are universally quantified, so this holds
for every configuration-driven rewrite and every parser behavior. -/
theorem verify_ria_url_decodes (rewrite : String → String)
    (parse : String → UrlRI) (url p : String) (ri : UrlRI)
    (h0 : url ≠ "")
    (hparse : parse (rewrite url) = ri)
    (hscheme : ri.scheme = "ria+" ++ p)
    (hp : p = "ssh" ∨ p = "file")
    (hfrag : ri.fragment = "") :
    verify_ria_url rewrite parse url =
      .ok (if p = "ssh" then ri.hostname else none, ri.path, rewrite url) := by
  rcases hp with hp | hp <;> subst hp <;>
    simp [verify_ria_url, h0, hparse, hscheme, hfrag,
      show pyStartsWith "ria+ssh" "ria+" = true from rfl,
      show pyStartsWith "ria+file" "ria+" = true from rfl,
      show pyDrop "ria+ssh" 4 = "ssh" from rfl,
      show pyDrop "ria+file" 4 = "file" from rfl]

theorem verify_ria_url_decodes_witness :
    "ria+ssh://host.example/store/path" ≠ "" ∧
    verify_ria_url id
      (fun u => if u = "ria+ssh://host.example/store/path" then
        ⟨"ria+ssh", "", some "host.example", "/store/path"⟩
        else ⟨"", "", none, ""⟩)
      "ria+ssh://host.example/store/path" =
      .ok (some "host.example", "/store/path",
        "ria+ssh://host.example/store/path") :=
  ⟨by decide, by
    have := verify_ria_url_decodes id
      (fun u => if u = "ria+ssh://host.example/store/path" then
        ⟨"ria+ssh", "", some "host.example", "/store/path"⟩
        else ⟨"", "", none, ""⟩)
      "ria+ssh://host.example/store/path" "ssh"
      ⟨"ria+ssh", "", some "host.example", "/store/path"⟩
      (by decide) (by simp) rfl (Or.inl rfl) rfl
    simpa using this⟩

/-- C8: `compress_files` with the target archive present fails with the
conflict `ValueError` when `overwrite` is false — performing no effect, so
the pre-existing archive stays in place — and with `overwrite` true first
unlinks the pre-existing target and only then invokes the archiver, as the
effect trace order shows. -/
theorem compress_files_overwrite (quote : String → String) (fs : FS)
    (files : List String) (archive : FPath) (cwd : Option FPath)
    (hex : fs.existsFile archive = true) :
    compress_files quote fs files archive cwd false =
      ⟨fs, [], .error (.valueError ("Target archive " ++ pathStr archive ++
        " already exists and overwrite is forbidden"))⟩ ∧
    compress_files quote fs files archive cwd true =
      ⟨fs.unlink archive,
        [.unlink archive, .run cwd (compressCmd quote files archive)],
        .ok ()⟩ := by
  constructor <;> simp [compress_files, hex]

theorem compress_files_overwrite_witness :
    (FS.empty.write ["out.7z"] "old").existsFile ["out.7z"] = true ∧
    compress_files id (FS.empty.write ["out.7z"] "old") ["f1"] ["out.7z"]
        none false =
      ⟨FS.empty.write ["out.7z"] "old", [],
        .error (.valueError ("Target archive " ++ pathStr ["out.7z"] ++
          " already exists and overwrite is forbidden"))⟩ ∧
    compress_files id (FS.empty.write ["out.7z"] "old") ["f1"] ["out.7z"]
        none true =
      ⟨(FS.empty.write ["out.7z"] "old").unlink ["out.7z"],
        [.unlink ["out.7z"],
          .run none (compressCmd id ["f1"] ["out.7z"])], .ok ()⟩ :=
  ⟨rfl, compress_files_overwrite id (FS.empty.write ["out.7z"] "old") ["f1"]
    ["out.7z"] none rfl⟩
